import Mathlib

/-!
Shallow embedding of the Bitter-Scan expert dashboard's client-side
cache/sync layer and its expert-action flows.

Sources embedded here:
* `components/DataContext.tsx` — the in-memory cache (`CacheState`), the bulk
  fetch (`fetchData`), the real-time change-event handlers
  (`applyScansInsert`, `applyScansUpdate`, `applyScansDelete`,
  `applyValidationInsert`, `applyValidationUpdate`, `applyValidationDelete`,
  `applyProfilesInsert`, `applyProfilesDelete`), the subscription effect and
  its status callback, and `removeScanFromState`.
* `app/validate/page.tsx` — `handleValidation` (confirm/correct flow with
  rollback and duplicate-key upsert).
* `app/history/page.tsx` — `handleEdit` / `handleDelete` (owner-only edits).
* the reports page — `aiAccuracyRate`.

Remote interactions are modelled explicitly: each flow takes the outcomes of
its remote calls as parameters and returns the list of remote write
operations it issued, in order, together with its outcome.  Numbers that are
exact integers in JavaScript are `Nat`/`Int`; the one fractional computation
(`aiAccuracyRate`) is modelled over `ℚ`.
-/

namespace BitterScan

/-- Denormalized profile snapshot joined onto scans (as `farmer_profile`)
and validation rows (as `expert_profile`). -/
structure ProfileSnapshot where
  id : String
  username : Option String
  full_name : Option String
  email : Option String
  profile_picture : Option String
  deriving DecidableEq, Repr

/-- A submitted image-based inference record (table `scans`). -/
structure Scan where
  id : Nat
  farmer_id : Option String
  scan_type : String
  ai_prediction : Option String
  confidence : Option ℚ
  status : String
  expert_validation : Option String
  expert_comment : Option String
  solution : Option String
  recommended_products : Option String
  image_url : Option String
  created_at : String
  updated_at : String
  farmer_profile : Option ProfileSnapshot
  deriving DecidableEq, Repr

/-- One expert's judgment on a scan (table `validation_history`), with the
denormalized expert profile and scan snapshots selected by the dashboard. -/
structure ValidationHistory where
  id : Nat
  scan_id : Option Nat
  expert_id : String
  ai_prediction : Option String
  expert_validation : Option String
  status : String
  expert_comment : Option String
  validated_at : String
  expert_profile : Option ProfileSnapshot
  scan : Option Scan
  deriving DecidableEq, Repr

/-- The `DataProvider` cache: the pieces of React state held by
`DataContext.tsx` (`scans`, `validationHistory`, `totalUsers`, `loading`,
`error`). -/
structure CacheState where
  scans : List Scan
  validationHistory : List ValidationHistory
  totalUsers : Int
  loading : Bool
  error : Option String
  deriving DecidableEq, Repr

/-- A Supabase/PostgREST error object (fields used by the dashboard). -/
structure SupaError where
  message : String
  details : Option String
  hint : Option String
  code : Option String
  status : Option Nat
  deriving DecidableEq, Repr

/-- JavaScript truthiness of an optional string (`Boolean(x)`): absent and
empty strings are falsy. -/
def jsTruthyStr : Option String → Bool
  | some s => s != ""
  | none => false

/-- JavaScript truthiness of an optional numeric id (`if (x.id)`): absent
and `0` are falsy.  Returns the id when truthy. -/
def truthyNatId : Option Nat → Option Nat
  | some n => if n = 0 then none else some n
  | none => none

/-- JavaScript `x || null` on an optional string (empty string collapses to
null), as used for `fullValidation.expert_validation || null`. -/
def orNullStr : Option String → Option String
  | some s => if s = "" then none else some s
  | none => none

/-- Truthiness of `profile?.full_name` for an optional profile snapshot. -/
def profileFullNameTruthy : Option ProfileSnapshot → Bool
  | none => false
  | some p => jsTruthyStr p.full_name

/-- Substring test (JavaScript `String.prototype.includes`). -/
def containsSub (s pat : String) : Bool :=
  (s.splitOn pat).length != 1

/-- The refresh-token detection used by `fetchData`'s catch block. -/
def isRefreshTokenError (e : SupaError) : Bool :=
  containsSub e.message "Refresh Token" ||
    containsSub e.message "refresh_token_not_found" ||
    e.status == some 401

/-- `scans` INSERT handler (DataContext lines 270-293): given the payload id
and the result of `fetchScanWithProfile`, prepend the fetched scan unless a
scan with the same id is already cached. -/
def applyScansInsert (initialFetched : Bool) (payloadId : Option Nat)
    (fetched : Option Scan) (st : CacheState) : CacheState :=
  if !initialFetched then st else
  match truthyNatId payloadId with
  | none => st
  | some _ =>
    match fetched with
    | none => st
    | some fullScan =>
      if st.scans.any (fun s => s.id == fullScan.id) then st
      else { st with scans := fullScan :: st.scans }

/-- `scans` UPDATE handler (DataContext lines 295-320): replace the cached
scan with the same id in place, or prepend when absent. -/
def applyScansUpdate (initialFetched : Bool) (payloadId : Option Nat)
    (fetched : Option Scan) (st : CacheState) : CacheState :=
  if !initialFetched then st else
  match truthyNatId payloadId with
  | none => st
  | some _ =>
    match fetched with
    | none => st
    | some fullScan =>
      match st.scans.findIdx? (fun s => s.id == fullScan.id) with
      | none => { st with scans := fullScan :: st.scans }
      | some i => { st with scans := st.scans.set i fullScan }

/-- `scans` DELETE handler (DataContext lines 321-332): drop cached scans
with the deleted id. -/
def applyScansDelete (initialFetched : Bool) (payloadId : Option Nat)
    (st : CacheState) : CacheState :=
  if !initialFetched then st else
  match truthyNatId payloadId with
  | none => st
  | some i => { st with scans := st.scans.filter (fun s => s.id != i) }

/-- The scan-mirroring step shared by the `validation_history` INSERT and
UPDATE handlers: if the validation row references a cached scan, overwrite
that scan's `status` (mapped `"Validated"` / else `"Corrected"`) and
`expert_validation` with the event row's values. -/
def mirrorScanFromValidation (v : ValidationHistory) (scans : List Scan) :
    List Scan :=
  match truthyNatId v.scan_id with
  | none => scans
  | some sid =>
    match scans.findIdx? (fun s => s.id == sid) with
    | none => scans
    | some i =>
      match scans[i]? with
      | none => scans
      | some s =>
        scans.set i
          { s with
            status := if v.status == "Validated" then "Validated" else "Corrected"
            expert_validation := orNullStr v.expert_validation }

/-- `validation_history` INSERT handler (DataContext lines 333-372): prepend
the fetched validation unless its id is already cached, then mirror its
fields onto the referenced scan. -/
def applyValidationInsert (initialFetched : Bool) (payloadId : Option Nat)
    (fetched : Option ValidationHistory) (st : CacheState) : CacheState :=
  if !initialFetched then st else
  match truthyNatId payloadId with
  | none => st
  | some _ =>
    match fetched with
    | none => st
    | some v =>
      let vh :=
        if st.validationHistory.any (fun w => w.id == v.id) then
          st.validationHistory
        else v :: st.validationHistory
      { st with
        validationHistory := vh
        scans := mirrorScanFromValidation v st.scans }

/-- `validation_history` UPDATE handler (DataContext lines 373-415): replace
the cached validation in place (or prepend when absent), then mirror its
fields onto the referenced scan. -/
def applyValidationUpdate (initialFetched : Bool) (payloadId : Option Nat)
    (fetched : Option ValidationHistory) (st : CacheState) : CacheState :=
  if !initialFetched then st else
  match truthyNatId payloadId with
  | none => st
  | some _ =>
    match fetched with
    | none => st
    | some v =>
      let vh :=
        match st.validationHistory.findIdx? (fun w => w.id == v.id) with
        | none => v :: st.validationHistory
        | some i => st.validationHistory.set i v
      { st with
        validationHistory := vh
        scans := mirrorScanFromValidation v st.scans }

/-- `validation_history` DELETE handler (DataContext lines 416-427): drop the
cached validation rows with the deleted id.  No scan is touched. -/
def applyValidationDelete (initialFetched : Bool) (payloadId : Option Nat)
    (st : CacheState) : CacheState :=
  if !initialFetched then st else
  match truthyNatId payloadId with
  | none => st
  | some i =>
    { st with validationHistory := st.validationHistory.filter (fun v => v.id != i) }

/-- `profiles` INSERT handler (DataContext lines 428-436). -/
def applyProfilesInsert (initialFetched : Bool) (st : CacheState) : CacheState :=
  if !initialFetched then st else { st with totalUsers := st.totalUsers + 1 }

/-- `profiles` DELETE handler (DataContext lines 437-445). -/
def applyProfilesDelete (initialFetched : Bool) (st : CacheState) : CacheState :=
  if !initialFetched then st else
  { st with totalUsers := max 0 (st.totalUsers - 1) }

/-- A profile-table change event kind. -/
inductive ProfileEvent where
  | insert
  | delete
  deriving DecidableEq, Repr

/-- Apply one profile change event (paired with the `initialFetched` guard
value at delivery time) to the cache. -/
def profileStep (st : CacheState) (e : Bool × ProfileEvent) : CacheState :=
  match e.2 with
  | ProfileEvent.insert => applyProfilesInsert e.1 st
  | ProfileEvent.delete => applyProfilesDelete e.1 st

/-- `removeScanFromState` (DataContext lines 538-540). -/
def removeScanFromState (st : CacheState) (scanId : Nat) : CacheState :=
  { st with scans := st.scans.filter (fun s => s.id != scanId) }

/-- The responses to the remote reads issued by one `fetchData` run: the
three bulk selects of the `Promise.all`, plus the fallback expert-profile
select (issued only when some validation row lacks a truthy
`expert_profile.full_name`). -/
structure FetchResponses where
  scansData : Except SupaError (List Scan)
  validationsData : Except SupaError (List ValidationHistory)
  profilesCount : Except SupaError (Option Nat)
  fallbackProfiles : Except SupaError (List ProfileSnapshot)
  deriving Repr

/-- The expert ids collected into `missingExpertIds` by `fetchData`
(lines 93-98): validation rows without a truthy `expert_profile.full_name`
but with a truthy `expert_id`, deduplicated as by a `Set`. -/
def missingExpertIds (validations : List ValidationHistory) : List String :=
  ((validations.filter
      (fun v => !profileFullNameTruthy v.expert_profile && v.expert_id != "")).map
    (fun v => v.expert_id)).dedup

/-- The fallback expert-profile enrichment of `fetchData` (lines 100-132):
when some rows miss a full name, look each missing expert id up in the
fallback profiles (last entry wins, as in a JavaScript `Map` built from the
list) and replace the row's `expert_profile`; a fallback fetch error leaves
the rows untouched. -/
def enrichValidations (validations : List ValidationHistory)
    (fallbackResp : Except SupaError (List ProfileSnapshot)) :
    List ValidationHistory :=
  if (missingExpertIds validations).isEmpty then validations
  else
    match fallbackResp with
    | Except.error _ => validations
    | Except.ok fallbackProfiles =>
      validations.map (fun v =>
        if profileFullNameTruthy v.expert_profile || v.expert_id == "" then v
        else
          match fallbackProfiles.reverse.find? (fun p => p.id == v.expert_id) with
          | none => v
          | some p =>
            { v with
              expert_profile := some
                { id := p.id, username := p.username, full_name := p.full_name,
                  email := p.email, profile_picture := none } })

/-- The state written by `fetchData`'s catch block (lines 138-156): a
refresh-token failure stores the session-expired message, any other failure
stores the prefixed load error; the finally block clears `loading`. -/
def fetchFailure (e : SupaError) (st : CacheState) : CacheState :=
  if isRefreshTokenError e then
    { st with error := some "Session expired. Please log in again.", loading := false }
  else
    { st with error := some ("Failed to load data: " ++ e.message), loading := false }

/-- `fetchData` (DataContext lines 35-159) as a state transformer.  Inputs:
the activation gate `isReady` (`Boolean(user?.id)`), the re-entrancy flag,
the `initialFetched` ref, the `showSpinner` argument and the remote
responses.  Returns the resulting cache state and the new value of the
`initialFetched` ref. -/
def fetchData (isReady isFetching initialFetched showSpinner : Bool)
    (resp : FetchResponses) (st : CacheState) : CacheState × Bool :=
  if !isReady || isFetching then (st, initialFetched)
  else
    let shouldShowSpinner := showSpinner || !initialFetched
    let st1 := if shouldShowSpinner then { st with loading := true } else st
    let st2 := { st1 with error := none }
    match resp.scansData with
    | Except.error e => (fetchFailure e st2, initialFetched)
    | Except.ok scansData =>
      match resp.validationsData with
      | Except.error e => (fetchFailure e st2, initialFetched)
      | Except.ok validationsData =>
        match resp.profilesCount with
        | Except.error e => (fetchFailure e st2, initialFetched)
        | Except.ok cnt =>
          ({ st2 with
              scans := scansData
              validationHistory := enrichValidations validationsData resp.fallbackProfiles
              totalUsers := Int.ofNat (cnt.getD 0)
              loading := false }, true)

/-- Summary of one run of the subscription `useEffect` body
(DataContext lines 233-521), before any channel status is reported. -/
structure SubscriptionEffectResult where
  channelCreated : Bool
  channelRemoved : Bool
  initialFetchTriggered : Bool
  initialFetchedAfter : Bool
  deriving DecidableEq, Repr

/-- The subscription `useEffect` gate: without a ready principal it only
cleans up and resets `initialFetched`; with an already-active subscription
it does nothing; otherwise it (re)creates the channel and triggers the
initial fetch when none has completed. -/
def subscriptionEffect (isReady subscriptionActive initialFetched hasChannel : Bool) :
    SubscriptionEffectResult :=
  if !isReady then
    { channelCreated := false, channelRemoved := hasChannel,
      initialFetchTriggered := false, initialFetchedAfter := false }
  else if subscriptionActive then
    { channelCreated := false, channelRemoved := false,
      initialFetchTriggered := false, initialFetchedAfter := initialFetched }
  else
    { channelCreated := true, channelRemoved := hasChannel,
      initialFetchTriggered := !initialFetched, initialFetchedAfter := initialFetched }

/-- Summary of one invocation of the `.subscribe` status callback
(DataContext lines 446-504). -/
structure StatusCallbackEffect where
  channelStored : Bool
  subscriptionActiveSet : Option Bool
  refetchTriggered : Bool
  deriving DecidableEq, Repr

/-- The `.subscribe` status callback: `SUBSCRIBED` stores the channel and
marks the subscription active; `CHANNEL_ERROR`, `TIMED_OUT` and `CLOSED`
mark it inactive and, when the initial load has completed and the fetch ref
is populated, trigger a full re-fetch (everything else in those branches is
logging). -/
def subscribeStatusCallback (status : String) (initialFetched fetchAvailable : Bool) :
    StatusCallbackEffect :=
  if status == "SUBSCRIBED" then
    { channelStored := true, subscriptionActiveSet := some true,
      refetchTriggered := false }
  else if status == "CHANNEL_ERROR" then
    { channelStored := false, subscriptionActiveSet := some false,
      refetchTriggered := initialFetched && fetchAvailable }
  else if status == "TIMED_OUT" || status == "CLOSED" then
    { channelStored := false, subscriptionActiveSet := some false,
      refetchTriggered := initialFetched && fetchAvailable }
  else
    { channelStored := false, subscriptionActiveSet := none,
      refetchTriggered := false }

/-- The expert action passed to `handleValidation`. -/
inductive ValidationAction where
  | confirm
  | correct
  deriving DecidableEq, Repr, BEq

/-- The `validation_history` insert payload built by `handleValidation`
(validate page lines 120-128). -/
structure HistoryPayload where
  scan_id : Nat
  expert_id : String
  ai_prediction : Option String
  expert_validation : String
  status : String
  validated_at : String
  expert_comment : Option String
  deriving DecidableEq, Repr

/-- A remote write issued by `handleValidation`, in issue order. -/
inductive RemoteOp where
  | scanUpdate (scanId : Nat) (status : String) (updatedAt : String)
  | historyInsert (p : HistoryPayload)
  | historyUpdateByScanExpert (scanId : Nat) (expertId : String) (p : HistoryPayload)
  deriving DecidableEq, Repr

/-- The outcome of a `handleValidation` run. -/
inductive ValidationOutcome where
  | skipped
  | earlyError (msg : String)
  | success
  | failure
  deriving DecidableEq, Repr

/-- The outcomes of the remote calls a `handleValidation` run may issue.
(`rollbackErr` only affects logging: the rollback write is attempted and the
run fails either way.) -/
structure ValidationRemoteBehavior where
  scanUpdateErr : Option SupaError
  historyInsertErr : Option SupaError
  historyUpdateErr : Option SupaError
  rollbackErr : Option SupaError
  deriving DecidableEq, Repr

/-- JavaScript `String.prototype.trim`: strip whitespace from both ends
(written with structural recursion so that it evaluates). -/
def jsTrim (s : String) : String :=
  String.mk (((s.data.dropWhile Char.isWhitespace).reverse.dropWhile
    Char.isWhitespace).reverse)

/-- JavaScript `x && x.trim().length > 0 ? x.trim() : null`. -/
def trimToNull : Option String → Option String
  | some s => if 0 < (jsTrim s).length then some (jsTrim s) else none
  | none => none

/-- JavaScript `x && x.trim().length > 0 ? x.trim() : ""`. -/
def trimToEmpty : Option String → String
  | some s => if 0 < (jsTrim s).length then jsTrim s else ""
  | none => ""

/-- The insert payload of `handleValidation` (validate page lines 120-128). -/
def validationPayload (scanId : Nat) (uid : String) (sc : Scan)
    (ev status timestamp : String) (note : Option String) : HistoryPayload :=
  { scan_id := scanId, expert_id := uid, ai_prediction := sc.ai_prediction,
    expert_validation := ev, status := status, validated_at := timestamp,
    expert_comment := note }

/-- The try/catch body of `handleValidation` (validate page lines 111-191):
update the scan's status, insert the history row, upsert on a duplicate-key
violation (code 23505), and roll the scan back to its original status on any
other failure after the scan update succeeded. -/
def runValidationWrites (scanId : Nat) (uid : String) (sc : Scan)
    (note : Option String) (ev status timestamp rollbackTimestamp : String)
    (r : ValidationRemoteBehavior) : List RemoteOp × ValidationOutcome :=
  let updateOp := RemoteOp.scanUpdate scanId status timestamp
  match r.scanUpdateErr with
  | some _ => ([updateOp], ValidationOutcome.failure)
  | none =>
    let payload := validationPayload scanId uid sc ev status timestamp note
    let insertOp := RemoteOp.historyInsert payload
    let rollbackOp := RemoteOp.scanUpdate scanId sc.status rollbackTimestamp
    match r.historyInsertErr with
    | none => ([updateOp, insertOp], ValidationOutcome.success)
    | some e =>
      if e.code == some "23505" then
        let updHistOp := RemoteOp.historyUpdateByScanExpert scanId uid payload
        match r.historyUpdateErr with
        | none => ([updateOp, insertOp, updHistOp], ValidationOutcome.success)
        | some _ =>
          ([updateOp, insertOp, updHistOp, rollbackOp], ValidationOutcome.failure)
      else
        ([updateOp, insertOp, rollbackOp], ValidationOutcome.failure)

/-- `handleValidation` (validate page lines 65-192): the guards and input
normalization, then `runValidationWrites`. -/
def handleValidation (scanId : Nat) (processingScanId : Option Nat)
    (scans : List Scan) (userId : Option String)
    (noteInput decisionInput : Option String) (action : ValidationAction)
    (timestamp rollbackTimestamp : String) (r : ValidationRemoteBehavior) :
    List RemoteOp × ValidationOutcome :=
  if processingScanId == some scanId then ([], ValidationOutcome.skipped)
  else
    match scans.find? (fun s => s.id == scanId) with
    | none => ([], ValidationOutcome.earlyError "Scan not found")
    | some selectedScan =>
      if !(jsTruthyStr userId) then
        ([], ValidationOutcome.earlyError "You must be signed in to validate scans.")
      else
        let uid := userId.getD ""
        let note := trimToNull noteInput
        let corrected := trimToEmpty decisionInput
        if action == ValidationAction.correct && corrected == "" then
          ([], ValidationOutcome.earlyError "Please select or enter the corrected result.")
        else
          let expertValidationOpt :=
            if action == ValidationAction.confirm then selectedScan.ai_prediction
            else if corrected != "" then some corrected else selectedScan.ai_prediction
          match expertValidationOpt with
          | none => ([], ValidationOutcome.earlyError "Unable to determine validation result.")
          | some ev =>
            if ev == "" then
              ([], ValidationOutcome.earlyError "Unable to determine validation result.")
            else
              let status :=
                if action == ValidationAction.confirm then "Validated" else "Corrected"
              runValidationWrites scanId uid selectedScan note ev status
                timestamp rollbackTimestamp r

/-- The edit form state of the history page. -/
structure EditForm where
  expert_validation : String
  status : String
  deriving DecidableEq, Repr

/-- A remote write issued by the history page's edit/delete flows, in issue
order. -/
inductive EditRemoteOp where
  | historyUpdate (id : Nat) (expert_validation : String) (status : String)
  | scanUpdateFromEdit (scanId : Nat) (status : String) (expert_comment : String)
      (updatedAt : String)
  | historyDelete (id : Nat)
  | scanRevertPending (scanId : Nat) (updatedAt : String)
  deriving DecidableEq, Repr

/-- The outcome of a `handleEdit` / `handleDelete` run. -/
inductive EditOutcome where
  | noop
  | ownershipError (msg : String)
  | success
  | failure
  deriving DecidableEq, Repr

/-- `handleEdit` (history page lines 162-207): refuse with an error and no
remote write when the record's `expert_id` differs from the signed-in user's
id; otherwise update the `validation_history` row and, when it references a
scan, write the form's status and label onto that scan (that second write's
error, if any, is not inspected by the code). -/
def handleEdit (filtered : List ValidationHistory) (editIdx : Option Nat)
    (userId : Option String) (editForm : EditForm) (timestamp : String)
    (updateErr : Option SupaError) : List EditRemoteOp × EditOutcome :=
  match editIdx with
  | none => ([], EditOutcome.noop)
  | some idx =>
    match filtered[idx]? with
    | none => ([], EditOutcome.noop)
    | some record =>
      match userId with
      | none => ([], EditOutcome.noop)
      | some uid =>
        if record.expert_id != uid then
          ([], EditOutcome.ownershipError "You can only edit your own validations.")
        else
          let upd := EditRemoteOp.historyUpdate record.id
            editForm.expert_validation editForm.status
          match updateErr with
          | some _ => ([upd], EditOutcome.failure)
          | none =>
            match truthyNatId record.scan_id with
            | none => ([upd], EditOutcome.success)
            | some sid =>
              ([upd, EditRemoteOp.scanUpdateFromEdit sid editForm.status
                  editForm.expert_validation timestamp], EditOutcome.success)

/-- `handleDelete` (history page lines 210-252): refuse with an error and no
remote write when the record's `expert_id` differs from the signed-in user's
id; otherwise delete the `validation_history` row and, when it references a
scan and was `Validated` or `Corrected`, revert that scan to
`Pending Validation`. -/
def handleDelete (filtered : List ValidationHistory) (deleteIdx : Option Nat)
    (userId : Option String) (timestamp : String)
    (deleteErr : Option SupaError) : List EditRemoteOp × EditOutcome :=
  match deleteIdx with
  | none => ([], EditOutcome.noop)
  | some idx =>
    match filtered[idx]? with
    | none => ([], EditOutcome.noop)
    | some record =>
      match userId with
      | none => ([], EditOutcome.noop)
      | some uid =>
        if record.expert_id != uid then
          ([], EditOutcome.ownershipError "You can only delete your own validations.")
        else
          let del := EditRemoteOp.historyDelete record.id
          match deleteErr with
          | some _ => ([del], EditOutcome.failure)
          | none =>
            match truthyNatId record.scan_id with
            | none => ([del], EditOutcome.success)
            | some sid =>
              if record.status == "Validated" || record.status == "Corrected" then
                ([del, EditRemoteOp.scanRevertPending sid timestamp],
                  EditOutcome.success)
              else ([del], EditOutcome.success)

/-- Rounding to one decimal place, as `parseFloat(x.toFixed(1))`. -/
def roundTo1 (q : ℚ) : ℚ := (round (q * 10) : ℤ) / 10

/-- `aiAccuracyRate` (reports page lines 361-375): the share of `Validated`
among `Validated` plus `Corrected` scans in the filtered range, as a
percentage rounded to one decimal, and `0` when no scan has been decided. -/
def aiAccuracyRate (filteredScans : List Scan) : ℚ :=
  let validatedCount := (filteredScans.filter (fun s => s.status == "Validated")).length
  let correctedCount := (filteredScans.filter (fun s => s.status == "Corrected")).length
  let total := validatedCount + correctedCount
  if total = 0 then 0
  else roundTo1 (((validatedCount : ℚ) / (total : ℚ)) * 100)

/-- The accuracy formula as the specification words it: 100 times the number
of `Validated` scans divided by the number of scans that are `Validated` or
`Corrected`, rounded to one decimal, `0` on an empty denominator. -/
def aiAccuracyRateSpec (filteredScans : List Scan) : ℚ :=
  let validated := (filteredScans.filter (fun s => s.status == "Validated")).length
  let denom := (filteredScans.filter
      (fun s => s.status == "Validated" || s.status == "Corrected")).length
  if denom = 0 then 0
  else roundTo1 ((100 * (validated : ℚ)) / (denom : ℚ))

/-- Strict lexicographic order on lists of naturals. -/
def natListLt : List Nat → List Nat → Bool
  | _, [] => false
  | [], _ :: _ => true
  | a :: as, b :: bs =>
    if a < b then true else if b < a then false else natListLt as bs

/-- Lexicographic comparison of two strings by character code, which on ISO
`validated_at` timestamps is chronological order. -/
def strLt (a b : String) : Bool :=
  natListLt (a.data.map Char.toNat) (b.data.map Char.toNat)

/-- The most recent `validation_history` row associated with a scan id,
comparing ISO `validated_at` timestamps lexicographically (ties keep the
earlier-listed row). -/
def mostRecentValidationFor (vh : List ValidationHistory) (sid : Nat) :
    Option ValidationHistory :=
  (vh.filter (fun v => v.scan_id == some sid)).foldl
    (fun acc v =>
      match acc with
      | none => some v
      | some w => if strLt w.validated_at v.validated_at then some v else some w)
    none

/-- The specification's mirror invariant for one scan id: every cached scan
with that id carries the `status` and `expert_validation` of the scan's most
recent associated `validation_history` row. -/
def scanMirrorsMostRecent (st : CacheState) (sid : Nat) : Bool :=
  st.scans.all (fun s =>
    s.id != sid ||
      (match mostRecentValidationFor st.validationHistory sid with
       | some v => s.status == v.status && s.expert_validation == v.expert_validation
       | none => true))

/-- A concrete scan fixture. -/
def mkScan (id : Nat) (status : String) (ev : Option String) : Scan :=
  { id := id, farmer_id := some "farmer-1", scan_type := "leaf_disease",
    ai_prediction := some "Healthy", confidence := none, status := status,
    expert_validation := ev, expert_comment := none, solution := none,
    recommended_products := none, image_url := none,
    created_at := "2024-01-01T08:00:00Z", updated_at := "2024-01-01T08:00:00Z",
    farmer_profile := none }

/-- A concrete validation-history fixture. -/
def mkValidation (id : Nat) (sid : Nat) (expert : String)
    (status : String) (ev : Option String) (ts : String) : ValidationHistory :=
  { id := id, scan_id := some sid, expert_id := expert,
    ai_prediction := some "Healthy", expert_validation := ev, status := status,
    expert_comment := none, validated_at := ts, expert_profile := none,
    scan := none }

/-- A cache holding one scan that mirrors the newer of its two validation
rows, used to exercise the `validation_history` DELETE handler. -/
def mirrorDemoState : CacheState :=
  { scans := [mkScan 1 "Validated" (some "Healthy")],
    validationHistory :=
      [mkValidation 2 1 "expert-a" "Validated" (some "Healthy")
         "2024-01-02T10:00:00Z",
       mkValidation 1 1 "expert-b" "Corrected" (some "Downy Mildew")
         "2024-01-01T10:00:00Z"],
    totalUsers := 3, loading := false, error := none }

end BitterScan




namespace BitterScan

/-! ## Helper lemmas -/

/-- A nonempty string has positive length. -/
lemma length_pos_of_ne_empty {s : String} (h : s ≠ "") : 0 < s.length := by
  rcases s with ⟨data⟩
  cases data with
  | nil => exact absurd rfl h
  | cons c cs => simp [String.length]

/-- Splitting a filter over two mutually exclusive status values. -/
lemma filter_status_split (l : List Scan) :
    (l.filter (fun s => s.status == "Validated")).length
        + (l.filter (fun s => s.status == "Corrected")).length
      = (l.filter (fun s => s.status == "Validated" || s.status == "Corrected")).length := by
  induction l with
  | nil => rfl
  | cons a l ih =>
    by_cases h1 : a.status = "Validated"
    · simp [List.filter_cons, h1, ← ih]
      omega
    · by_cases h2 : a.status = "Corrected"
      · simp [List.filter_cons, h1, h2, ← ih]
        omega
      · simp [List.filter_cons, h1, h2, ← ih]

/-! ## Claim theorems -/

/-- C6: `removeScanFromState id` removes exactly the cached scans whose id
equals the argument, keeps the survivors in their relative order (the result
is a sublist of the original list), and leaves `validationHistory`,
`totalUsers`, `loading` and `error` unchanged. -/
theorem removeScan_exact_and_frame (st : CacheState) (scanId : Nat) :
    List.Sublist (removeScanFromState st scanId).scans st.scans
    ∧ (∀ s, s ∈ (removeScanFromState st scanId).scans ↔ s ∈ st.scans ∧ s.id ≠ scanId)
    ∧ (removeScanFromState st scanId).validationHistory = st.validationHistory
    ∧ (removeScanFromState st scanId).totalUsers = st.totalUsers
    ∧ (removeScanFromState st scanId).loading = st.loading
    ∧ (removeScanFromState st scanId).error = st.error := by
  refine ⟨List.filter_sublist _, fun s => ?_, rfl, rfl, rfl, rfl⟩
  simp [removeScanFromState, List.mem_filter]

/-- C6 witness: the theorem applied to a concrete cache. -/
theorem removeScan_exact_and_frame_witness :
    List.Sublist (removeScanFromState mirrorDemoState 1).scans mirrorDemoState.scans
    ∧ (removeScanFromState mirrorDemoState 1).validationHistory
        = mirrorDemoState.validationHistory :=
  ⟨(removeScan_exact_and_frame mirrorDemoState 1).1,
   (removeScan_exact_and_frame mirrorDemoState 1).2.2.1⟩

/-- C10: the profiles INSERT handler increments the cached user count, the
DELETE handler replaces it by `max 0 (n - 1)`, and from any non-negative
starting count every count reachable by a sequence of profile change events
is non-negative. -/
theorem totalUsers_never_negative (st : CacheState)
    (events : List (Bool × ProfileEvent)) (h : 0 ≤ st.totalUsers) :
    0 ≤ (events.foldl profileStep st).totalUsers
    ∧ (applyProfilesInsert true st).totalUsers = st.totalUsers + 1
    ∧ (applyProfilesDelete true st).totalUsers = max 0 (st.totalUsers - 1) := by
  refine ⟨?_, rfl, rfl⟩
  induction events generalizing st with
  | nil => exact h
  | cons e es ih =>
    apply ih
    rcases e with ⟨b, ev⟩
    cases ev with
    | insert =>
      cases b with
      | false => exact h
      | true =>
        simp only [profileStep, applyProfilesInsert]
        simp only [Bool.not_true, Bool.false_eq_true, if_false]
        omega
    | delete =>
      cases b with
      | false => exact h
      | true =>
        simp only [profileStep, applyProfilesDelete]
        simp only [Bool.not_true, Bool.false_eq_true, if_false]
        exact le_max_left 0 _

/-- C10 witness: the theorem applied to a concrete cache and event list. -/
theorem totalUsers_never_negative_witness :
    0 ≤ (([(true, ProfileEvent.delete), (true, ProfileEvent.delete),
           (true, ProfileEvent.delete), (true, ProfileEvent.delete),
           (true, ProfileEvent.insert)]).foldl profileStep mirrorDemoState).totalUsers :=
  (totalUsers_never_negative mirrorDemoState _ (by decide)).1

/-- C4: with no signed-in principal (absent or empty user id) a `fetchData`
call returns at once with the whole cache state — `scans`,
`validationHistory`, `totalUsers`, `loading`, `error` — and the
`initialFetched` ref unchanged, and the subscription effect creates no
channel. -/
theorem no_principal_no_fetch_no_channel
    (userId : Option String) (isFetching initialFetched showSpinner : Bool)
    (resp : FetchResponses) (st : CacheState)
    (subscriptionActive hasChannel : Bool)
    (h : jsTruthyStr userId = false) :
    fetchData (jsTruthyStr userId) isFetching initialFetched showSpinner resp st
        = (st, initialFetched)
    ∧ (subscriptionEffect (jsTruthyStr userId) subscriptionActive initialFetched
          hasChannel).channelCreated = false := by
  rw [h]
  exact ⟨by simp [fetchData], by simp [subscriptionEffect]⟩

/-- C4 witness: the theorem applied with no user at a concrete cache. -/
theorem no_principal_no_fetch_no_channel_witness :
    fetchData (jsTruthyStr none) false false false
        ⟨Except.ok [], Except.ok [], Except.ok none, Except.ok []⟩ mirrorDemoState
      = (mirrorDemoState, false)
    ∧ (subscriptionEffect (jsTruthyStr none) false false false).channelCreated = false :=
  no_principal_no_fetch_no_channel none false false false
    ⟨Except.ok [], Except.ok [], Except.ok none, Except.ok []⟩
    mirrorDemoState false false rfl


/-- C5: on `CHANNEL_ERROR`, `TIMED_OUT` or `CLOSED` after the initial bulk
load, the status callback's only recovery action is the full re-fetch (it
stores no channel, just marks the subscription inactive and triggers the
fetch), and that re-fetch replaces the cached collections wholesale from the
responses — the result does not depend on the previous cache contents, so no
partial repair takes place. -/
theorem channel_failure_recovery_is_full_refetch
    (status : String) (resp : FetchResponses) (sd : List Scan)
    (vd : List ValidationHistory) (cnt : Option Nat) (st : CacheState)
    (h : status = "CHANNEL_ERROR" ∨ status = "TIMED_OUT" ∨ status = "CLOSED")
    (hs : resp.scansData = Except.ok sd) (hv : resp.validationsData = Except.ok vd)
    (hp : resp.profilesCount = Except.ok cnt) :
    (subscribeStatusCallback status true true).refetchTriggered = true
    ∧ (subscribeStatusCallback status true true).channelStored = false
    ∧ (subscribeStatusCallback status true true).subscriptionActiveSet = some false
    ∧ (fetchData true false true false resp st).1 =
        { scans := sd,
          validationHistory := enrichValidations vd resp.fallbackProfiles,
          totalUsers := Int.ofNat (cnt.getD 0),
          loading := false, error := none } := by
  refine ⟨?_, ?_, ?_, ?_⟩
  · rcases h with h | h | h <;> subst h <;> simp [subscribeStatusCallback]
  · rcases h with h | h | h <;> subst h <;> simp [subscribeStatusCallback]
  · rcases h with h | h | h <;> subst h <;> simp [subscribeStatusCallback]
  · simp [fetchData, hs, hv, hp]

/-- C5 witness: the theorem applied at `CHANNEL_ERROR` with concrete
responses and a concrete (stale) cache. -/
theorem channel_failure_recovery_witness :
    (subscribeStatusCallback "CHANNEL_ERROR" true true).refetchTriggered = true
    ∧ (fetchData true false true false
          ⟨Except.ok [mkScan 9 "Pending Validation" none], Except.ok [],
           Except.ok (some 5), Except.ok []⟩ mirrorDemoState).1 =
        { scans := [mkScan 9 "Pending Validation" none],
          validationHistory := enrichValidations [] (Except.ok []),
          totalUsers := Int.ofNat ((some 5).getD 0),
          loading := false, error := none } :=
  ⟨(channel_failure_recovery_is_full_refetch "CHANNEL_ERROR"
      ⟨Except.ok [mkScan 9 "Pending Validation" none], Except.ok [],
       Except.ok (some 5), Except.ok []⟩
      [mkScan 9 "Pending Validation" none] [] (some 5) mirrorDemoState
      (Or.inl rfl) rfl rfl rfl).1,
   (channel_failure_recovery_is_full_refetch "CHANNEL_ERROR"
      ⟨Except.ok [mkScan 9 "Pending Validation" none], Except.ok [],
       Except.ok (some 5), Except.ok []⟩
      [mkScan 9 "Pending Validation" none] [] (some 5) mirrorDemoState
      (Or.inl rfl) rfl rfl rfl).2.2.2⟩

/-- C8: applying an INSERT change event whose row id is already cached
leaves the corresponding collection unchanged, and consequently insert-event
application preserves distinctness of the cached ids in both collections. -/
theorem insert_dedup_preserves_distinct_ids
    (b : Bool) (pid : Option Nat) (v : Scan) (w : ValidationHistory)
    (st : CacheState) :
    (st.scans.any (fun s => s.id == v.id) = true →
        (applyScansInsert b pid (some v) st).scans = st.scans)
    ∧ (st.validationHistory.any (fun u => u.id == w.id) = true →
        (applyValidationInsert b pid (some w) st).validationHistory
          = st.validationHistory)
    ∧ ((st.scans.map Scan.id).Nodup →
        ((applyScansInsert b pid (some v) st).scans.map Scan.id).Nodup)
    ∧ ((st.validationHistory.map ValidationHistory.id).Nodup →
        ((applyValidationInsert b pid (some w) st).validationHistory.map
            ValidationHistory.id).Nodup) := by
  have hmem : st.scans.any (fun s => s.id == v.id) = false →
      v.id ∉ st.scans.map Scan.id := by
    intro hfalse hmem
    rcases List.mem_map.mp hmem with ⟨s, hs, hid⟩
    have := (List.any_eq_false.mp hfalse) s hs
    simp [hid] at this
  have hmemv : st.validationHistory.any (fun u => u.id == w.id) = false →
      w.id ∉ st.validationHistory.map ValidationHistory.id := by
    intro hfalse hmem
    rcases List.mem_map.mp hmem with ⟨u, hu, hid⟩
    have := (List.any_eq_false.mp hfalse) u hu
    simp [hid] at this
  refine ⟨?_, ?_, ?_, ?_⟩
  · intro hdup
    cases b with
    | false => rfl
    | true =>
      cases htn : truthyNatId pid with
      | none => simp [applyScansInsert, htn]
      | some n => simp [applyScansInsert, htn, hdup]
  · intro hdup
    cases b with
    | false => rfl
    | true =>
      cases htn : truthyNatId pid with
      | none => simp [applyValidationInsert, htn]
      | some n => simp [applyValidationInsert, htn, hdup]
  · intro hnd
    cases b with
    | false => exact hnd
    | true =>
      cases htn : truthyNatId pid with
      | none => simpa [applyScansInsert, htn] using hnd
      | some n =>
        cases hdup : st.scans.any (fun s => s.id == v.id) with
        | true => simpa [applyScansInsert, htn, hdup] using hnd
        | false =>
          simp only [applyScansInsert, htn, hdup, Bool.not_true,
            Bool.false_eq_true, if_false]
          simpa using List.Nodup.cons (hmem hdup) hnd
  · intro hnd
    cases b with
    | false => exact hnd
    | true =>
      cases htn : truthyNatId pid with
      | none => simpa [applyValidationInsert, htn] using hnd
      | some n =>
        cases hdup : st.validationHistory.any (fun u => u.id == w.id) with
        | true => simpa [applyValidationInsert, htn, hdup] using hnd
        | false =>
          simp only [applyValidationInsert, htn, hdup, Bool.not_true,
            Bool.false_eq_true, if_false]
          simpa using List.Nodup.cons (hmemv hdup) hnd

/-- C8 witness: the theorem applied to a concrete cache with a duplicate
scan insert and a fresh validation insert. -/
theorem insert_dedup_witness :
    (applyScansInsert true (some 1) (some (mkScan 1 "Pending Validation" none))
        mirrorDemoState).scans = mirrorDemoState.scans
    ∧ ((applyValidationInsert true (some 7)
          (some (mkValidation 7 1 "expert-a" "Validated" none "2024-01-03T10:00:00Z"))
          mirrorDemoState).validationHistory.map ValidationHistory.id).Nodup :=
  ⟨(insert_dedup_preserves_distinct_ids true (some 1)
      (mkScan 1 "Pending Validation" none)
      (mkValidation 7 1 "expert-a" "Validated" none "2024-01-03T10:00:00Z")
      mirrorDemoState).1 (by decide),
   (insert_dedup_preserves_distinct_ids true (some 7)
      (mkScan 1 "Pending Validation" none)
      (mkValidation 7 1 "expert-a" "Validated" none "2024-01-03T10:00:00Z")
      mirrorDemoState).2.2.2 (by decide)⟩

/-- C1 counterexample: in a cache whose scan 1 mirrors the newer of its two
validation rows, applying the DELETE change event for that newer row leaves
the scan untouched, so it no longer carries the status and
expert_validation of the (new) most recent associated row. -/
theorem mirror_invariant_fails_on_delete :
    scanMirrorsMostRecent mirrorDemoState 1 = true
    ∧ scanMirrorsMostRecent (applyValidationDelete true (some 2) mirrorDemoState) 1
        = false := by
  decide


/-- C1 (amended): after an insert or update event for a validation row that
references a cached scan, the cache sets that scan's status to `Validated`
when the event row's status is `Validated` and to `Corrected` otherwise,
and its expert_validation to the event row's value — i.e. the scan mirrors
the event row (hence the most recent row exactly when the event row is the
most recent one); delete events leave every cached scan unchanged, so the
mirror is not maintained on delete. -/
theorem scan_mirrors_event_row_not_most_recent
    (v : ValidationHistory) (st : CacheState) (i sid : Nat) (s0 : Scan)
    (hv0 : v.id ≠ 0)
    (hsid : truthyNatId v.scan_id = some sid)
    (hidx : st.scans.findIdx? (fun s => s.id == sid) = some i)
    (hs0 : st.scans[i]? = some s0) :
    ((applyValidationInsert true (some v.id) (some v) st).scans)[i]? =
        some { s0 with
               status := if v.status == "Validated" then "Validated" else "Corrected",
               expert_validation := orNullStr v.expert_validation }
    ∧ ((applyValidationUpdate true (some v.id) (some v) st).scans)[i]? =
        some { s0 with
               status := if v.status == "Validated" then "Validated" else "Corrected",
               expert_validation := orNullStr v.expert_validation }
    ∧ ∀ (b : Bool) (pid : Option Nat) (st2 : CacheState),
        (applyValidationDelete b pid st2).scans = st2.scans := by
  have hlt : i < st.scans.length := by
    rcases List.getElem?_eq_some.mp hs0 with ⟨hl, _⟩
    exact hl
  have hmirror : (mirrorScanFromValidation v st.scans)[i]? =
      some { s0 with
             status := if v.status == "Validated" then "Validated" else "Corrected",
             expert_validation := orNullStr v.expert_validation } := by
    rw [mirrorScanFromValidation, hsid]
    simp only [hidx, hs0]
    rw [List.getElem?_set_self]
    exact hlt
  refine ⟨?_, ?_, ?_⟩
  · simpa [applyValidationInsert, truthyNatId, hv0] using hmirror
  · simpa [applyValidationUpdate, truthyNatId, hv0] using hmirror
  · intro b pid st2
    cases b with
    | false => rfl
    | true =>
      cases htn : truthyNatId pid with
      | none => simp [applyValidationDelete, htn]
      | some n => simp [applyValidationDelete, htn]

/-- C1 (amended) witness: the theorem applied to a concrete insert event
overwriting the mirrored fields of scan 1. -/
theorem scan_mirrors_event_row_witness :
    ((applyValidationInsert true (some 3)
        (some (mkValidation 3 1 "expert-b" "Corrected" (some "Fusarium Wilt")
            "2024-01-03T10:00:00Z"))
        mirrorDemoState).scans)[0]? =
      some { mkScan 1 "Validated" (some "Healthy") with
             status := if (mkValidation 3 1 "expert-b" "Corrected"
                 (some "Fusarium Wilt") "2024-01-03T10:00:00Z").status == "Validated"
               then "Validated" else "Corrected",
             expert_validation := orNullStr (some "Fusarium Wilt") } :=
  (scan_mirrors_event_row_not_most_recent
    (mkValidation 3 1 "expert-b" "Corrected" (some "Fusarium Wilt")
      "2024-01-03T10:00:00Z")
    mirrorDemoState 0 1 (mkScan 1 "Validated" (some "Healthy"))
    (by decide) (by decide) (by decide) (by decide)).1

/-- C7: the reported AI accuracy rate computed by the reports page equals
the specification formula — 100 times the `Validated` count divided by the
count of `Validated`-or-`Corrected` scans, rounded to one decimal, `0` on an
empty denominator — and scans with status `Pending Validation` never affect
the rate. -/
theorem aiAccuracyRate_matches_spec_and_ignores_pending (scans : List Scan) :
    aiAccuracyRate scans = aiAccuracyRateSpec scans
    ∧ ∀ p : Scan, p.status = "Pending Validation" →
        aiAccuracyRate (p :: scans) = aiAccuracyRate scans := by
  constructor
  · rw [aiAccuracyRate, aiAccuracyRateSpec, ← filter_status_split scans]
    by_cases h0 :
        (scans.filter (fun s => s.status == "Validated")).length
          + (scans.filter (fun s => s.status == "Corrected")).length = 0
    · simp [h0]
    · simp only [h0, if_false]
      congr 1
      push_cast
      rw [div_mul_eq_mul_div, mul_comm]
  · intro p hp
    have h1 : (p.status == "Validated") = false := by simp [hp]
    have h2 : (p.status == "Corrected") = false := by simp [hp]
    rw [aiAccuracyRate, aiAccuracyRate, List.filter_cons, List.filter_cons, h1, h2]
    simp

/-- C7 witness: the theorem applied to a concrete filtered scan list and a
concrete pending scan. -/
theorem aiAccuracyRate_witness :
    aiAccuracyRate [mkScan 1 "Validated" none, mkScan 2 "Corrected" none]
      = aiAccuracyRateSpec [mkScan 1 "Validated" none, mkScan 2 "Corrected" none]
    ∧ aiAccuracyRate (mkScan 3 "Pending Validation" none ::
        [mkScan 1 "Validated" none, mkScan 2 "Corrected" none])
      = aiAccuracyRate [mkScan 1 "Validated" none, mkScan 2 "Corrected" none] :=
  ⟨(aiAccuracyRate_matches_spec_and_ignores_pending
      [mkScan 1 "Validated" none, mkScan 2 "Corrected" none]).1,
   (aiAccuracyRate_matches_spec_and_ignores_pending
      [mkScan 1 "Validated" none, mkScan 2 "Corrected" none]).2
      (mkScan 3 "Pending Validation" none) rfl⟩

/-- C3: when the signed-in user's id differs from a validation record's
`expert_id`, `handleEdit` and `handleDelete` issue no remote write at all and
report an ownership error (leaving the remote row and its scan untouched);
and whenever either flow issues any remote write, the ids match. -/
theorem edit_delete_owner_only
    (filtered : List ValidationHistory) (idx : Nat) (uid : String)
    (editForm : EditForm) (timestamp : String)
    (updateErr deleteErr : Option SupaError) (record : ValidationHistory)
    (hrec : filtered[idx]? = some record) :
    (record.expert_id ≠ uid →
        handleEdit filtered (some idx) (some uid) editForm timestamp updateErr
            = ([], EditOutcome.ownershipError "You can only edit your own validations.")
        ∧ handleDelete filtered (some idx) (some uid) timestamp deleteErr
            = ([], EditOutcome.ownershipError "You can only delete your own validations."))
    ∧ ((handleEdit filtered (some idx) (some uid) editForm timestamp updateErr).1 ≠ []
        → record.expert_id = uid)
    ∧ ((handleDelete filtered (some idx) (some uid) timestamp deleteErr).1 ≠ []
        → record.expert_id = uid) := by
  refine ⟨fun hne => ?_, fun hops => ?_, fun hops => ?_⟩
  · have hbne : (record.expert_id != uid) = true := bne_iff_ne.mpr hne
    exact ⟨by simp [handleEdit, hrec, hbne], by simp [handleDelete, hrec, hbne]⟩
  · by_contra hne
    have hbne : (record.expert_id != uid) = true := bne_iff_ne.mpr hne
    simp [handleEdit, hrec, hbne] at hops
  · by_contra hne
    have hbne : (record.expert_id != uid) = true := bne_iff_ne.mpr hne
    simp [handleDelete, hrec, hbne] at hops

/-- C3 witness: the theorem applied to a concrete record owned by another
expert. -/
theorem edit_delete_owner_only_witness :
    handleEdit mirrorDemoState.validationHistory (some 0) (some "expert-z")
        ⟨"Healthy", "Validated"⟩ "2024-01-05T00:00:00Z" none
      = ([], EditOutcome.ownershipError "You can only edit your own validations.")
    ∧ handleDelete mirrorDemoState.validationHistory (some 0) (some "expert-z")
        "2024-01-05T00:00:00Z" none
      = ([], EditOutcome.ownershipError "You can only delete your own validations.") :=
  (edit_delete_owner_only mirrorDemoState.validationHistory 0 "expert-z"
    ⟨"Healthy", "Validated"⟩ "2024-01-05T00:00:00Z" none none
    (mkValidation 2 1 "expert-a" "Validated" (some "Healthy") "2024-01-02T10:00:00Z")
    (by decide)).1 (by decide)


/-- C2: on the happy path, confirming a pending scan issues a
`validation_history` insert with status `Validated` and `expert_validation`
equal to the scan's AI prediction, correcting issues one with status
`Corrected` and `expert_validation` equal to the expert's selected label,
and in both cases the scan-status update issued first carries the same
status value and the same timestamp as the inserted record's
`validated_at`. -/
theorem handleValidation_confirm_correct_payloads
    (scanId : Nat) (processingScanId : Option Nat) (scans : List Scan)
    (uid : String) (noteInput decisionInput : Option String)
    (timestamp rollbackTimestamp : String) (r : ValidationRemoteBehavior)
    (sc : Scan)
    (hproc : (processingScanId == some scanId) = false)
    (hfind : scans.find? (fun s => s.id == scanId) = some sc)
    (huid : uid ≠ "")
    (hupd : r.scanUpdateErr = none) (hins : r.historyInsertErr = none) :
    (∀ ap, sc.ai_prediction = some ap → ap ≠ "" →
        handleValidation scanId processingScanId scans (some uid) noteInput
            decisionInput ValidationAction.confirm timestamp rollbackTimestamp r
          = ([RemoteOp.scanUpdate scanId "Validated" timestamp,
              RemoteOp.historyInsert (validationPayload scanId uid sc ap
                "Validated" timestamp (trimToNull noteInput))],
             ValidationOutcome.success))
    ∧ (∀ d, decisionInput = some d → jsTrim d ≠ "" →
        handleValidation scanId processingScanId scans (some uid) noteInput
            decisionInput ValidationAction.correct timestamp rollbackTimestamp r
          = ([RemoteOp.scanUpdate scanId "Corrected" timestamp,
              RemoteOp.historyInsert (validationPayload scanId uid sc (jsTrim d)
                "Corrected" timestamp (trimToNull noteInput))],
             ValidationOutcome.success)) := by
  have hbuid : (uid != "") = true := bne_iff_ne.mpr huid
  have hcc : (ValidationAction.confirm == ValidationAction.correct) = false := rfl
  have hcf : (ValidationAction.confirm == ValidationAction.confirm) = true := rfl
  have hrc : (ValidationAction.correct == ValidationAction.correct) = true := rfl
  have hrf : (ValidationAction.correct == ValidationAction.confirm) = false := rfl
  constructor
  · intro ap hai hap
    rw [handleValidation, hproc]
    simp only [Bool.false_eq_true, if_false, hfind, jsTruthyStr, hbuid,
      Bool.not_true, Option.getD_some]
    simp [hcc, hcf, hai, hap, runValidationWrites, hupd, hins]
  · intro d hd hdt
    have hlen : 0 < (jsTrim d).length := length_pos_of_ne_empty hdt
    rw [handleValidation, hproc]
    simp only [Bool.false_eq_true, if_false, hfind, jsTruthyStr, hbuid,
      Bool.not_true, Option.getD_some]
    simp [hrc, hrf, trimToEmpty, hd, hlen, hdt, runValidationWrites, hupd, hins]

/-- C2 witness: the theorem applied to a concrete pending scan, once
confirmed and once corrected. -/
theorem handleValidation_payloads_witness :
    handleValidation 1 none [mkScan 1 "Pending Validation" none] (some "expert-a")
        (some " looks right ") none ValidationAction.confirm
        "2024-01-04T09:00:00Z" "2024-01-04T09:00:05Z" ⟨none, none, none, none⟩
      = ([RemoteOp.scanUpdate 1 "Validated" "2024-01-04T09:00:00Z",
          RemoteOp.historyInsert (validationPayload 1 "expert-a"
            (mkScan 1 "Pending Validation" none) "Healthy" "Validated"
            "2024-01-04T09:00:00Z" (trimToNull (some " looks right ")))],
         ValidationOutcome.success)
    ∧ handleValidation 1 none [mkScan 1 "Pending Validation" none] (some "expert-a")
        none (some "Downy Mildew") ValidationAction.correct
        "2024-01-04T09:00:00Z" "2024-01-04T09:00:05Z" ⟨none, none, none, none⟩
      = ([RemoteOp.scanUpdate 1 "Corrected" "2024-01-04T09:00:00Z",
          RemoteOp.historyInsert (validationPayload 1 "expert-a"
            (mkScan 1 "Pending Validation" none) (jsTrim "Downy Mildew") "Corrected"
            "2024-01-04T09:00:00Z" (trimToNull none))],
         ValidationOutcome.success) :=
  ⟨(handleValidation_confirm_correct_payloads 1 none
      [mkScan 1 "Pending Validation" none] "expert-a" (some " looks right ") none
      "2024-01-04T09:00:00Z" "2024-01-04T09:00:05Z" ⟨none, none, none, none⟩
      (mkScan 1 "Pending Validation" none) rfl (by decide) (by decide) rfl rfl).1
      "Healthy" rfl (by decide),
   (handleValidation_confirm_correct_payloads 1 none
      [mkScan 1 "Pending Validation" none] "expert-a" none (some "Downy Mildew")
      "2024-01-04T09:00:00Z" "2024-01-04T09:00:05Z" ⟨none, none, none, none⟩
      (mkScan 1 "Pending Validation" none) rfl (by decide) (by decide) rfl rfl).2
      "Downy Mildew" rfl (by decide)⟩

/-- C9: in the try-block of the validation flow, once the scan status update
has succeeded, a history-insert failure with a code other than 23505 makes
the flow re-issue a scan update restoring the original status (the last
remote write, before the failure outcome); a failure with code 23505
instead updates the existing `validation_history` row keyed by the scan and
expert ids with the same payload, and the flow succeeds. -/
theorem insert_failure_rollback_or_upsert
    (scanId : Nat) (uid : String) (sc : Scan) (note : Option String)
    (ev status timestamp rollbackTimestamp : String)
    (r : ValidationRemoteBehavior) (e : SupaError)
    (hupd : r.scanUpdateErr = none) (hins : r.historyInsertErr = some e) :
    (e.code ≠ some "23505" →
        runValidationWrites scanId uid sc note ev status timestamp
            rollbackTimestamp r
          = ([RemoteOp.scanUpdate scanId status timestamp,
              RemoteOp.historyInsert (validationPayload scanId uid sc ev status
                timestamp note),
              RemoteOp.scanUpdate scanId sc.status rollbackTimestamp],
             ValidationOutcome.failure))
    ∧ (e.code = some "23505" → r.historyUpdateErr = none →
        runValidationWrites scanId uid sc note ev status timestamp
            rollbackTimestamp r
          = ([RemoteOp.scanUpdate scanId status timestamp,
              RemoteOp.historyInsert (validationPayload scanId uid sc ev status
                timestamp note),
              RemoteOp.historyUpdateByScanExpert scanId uid
                (validationPayload scanId uid sc ev status timestamp note)],
             ValidationOutcome.success)) := by
  constructor
  · intro hne
    have hb : (e.code == some "23505") = false := by
      simp only [beq_eq_false_iff_ne, ne_eq]
      exact hne
    simp [runValidationWrites, hupd, hins, hb]
  · intro hcode hhist
    simp [runValidationWrites, hupd, hins, hcode, hhist]

/-- C9 witness: the theorem applied to a concrete non-duplicate insert
failure (rollback) and to a concrete duplicate-key failure (upsert). -/
theorem rollback_or_upsert_witness :
    runValidationWrites 1 "expert-a" (mkScan 1 "Pending Validation" none) none
        "Healthy" "Validated" "2024-01-04T09:00:00Z" "2024-01-04T09:00:05Z"
        ⟨none, some ⟨"boom", none, none, some "500", none⟩, none, none⟩
      = ([RemoteOp.scanUpdate 1 "Validated" "2024-01-04T09:00:00Z",
          RemoteOp.historyInsert (validationPayload 1 "expert-a"
            (mkScan 1 "Pending Validation" none) "Healthy" "Validated"
            "2024-01-04T09:00:00Z" none),
          RemoteOp.scanUpdate 1 "Pending Validation" "2024-01-04T09:00:05Z"],
         ValidationOutcome.failure)
    ∧ runValidationWrites 1 "expert-a" (mkScan 1 "Pending Validation" none) none
        "Healthy" "Validated" "2024-01-04T09:00:00Z" "2024-01-04T09:00:05Z"
        ⟨none, some ⟨"duplicate key value", none, none, some "23505", none⟩, none, none⟩
      = ([RemoteOp.scanUpdate 1 "Validated" "2024-01-04T09:00:00Z",
          RemoteOp.historyInsert (validationPayload 1 "expert-a"
            (mkScan 1 "Pending Validation" none) "Healthy" "Validated"
            "2024-01-04T09:00:00Z" none),
          RemoteOp.historyUpdateByScanExpert 1 "expert-a"
            (validationPayload 1 "expert-a" (mkScan 1 "Pending Validation" none)
              "Healthy" "Validated" "2024-01-04T09:00:00Z" none)],
         ValidationOutcome.success) :=
  ⟨(insert_failure_rollback_or_upsert 1 "expert-a"
      (mkScan 1 "Pending Validation" none) none "Healthy" "Validated"
      "2024-01-04T09:00:00Z" "2024-01-04T09:00:05Z"
      ⟨none, some ⟨"boom", none, none, some "500", none⟩, none, none⟩
      ⟨"boom", none, none, some "500", none⟩ rfl rfl).1 (by decide),
   (insert_failure_rollback_or_upsert 1 "expert-a"
      (mkScan 1 "Pending Validation" none) none "Healthy" "Validated"
      "2024-01-04T09:00:00Z" "2024-01-04T09:00:05Z"
      ⟨none, some ⟨"duplicate key value", none, none, some "23505", none⟩, none, none⟩
      ⟨"duplicate key value", none, none, some "23505", none⟩ rfl rfl).2 rfl rfl⟩

end BitterScan
